import Mathlib

/-!
Verification of the mcp-solr-search server against its specification.

The development shallowly embeds the Python sources:
  * `src/server/solr_client.py`  — `SolrClient.search`, `SolrClient.get_document`
  * `src/server/oauth.py`        — `OAuth2Config`, `TokenValidator` (JWKS cache,
                                    local / introspection validation, scope check)
  * `src/server/mcp_server.py`   — `validate_oauth_token`, the `search` and
                                    `get_document` MCP tools
  * `src/server.py`              — the legacy `SolrClient` variant

Python values are modelled by the inductive `PyVal`; dictionaries are
association lists built in source order; exceptions are modelled by
`Except` with an explicit error type.  Network interactions (httpx calls,
JWT library calls) are modelled by outcome oracles: each embedded function
takes the outcome the external call would produce and the embedding
reproduces exactly the control flow the Python code performs on it.
-/

/-- Model of a Python/JSON value as it occurs in this code base. -/
inductive PyVal where
  | pnone
  | pbool (b : Bool)
  | pint (n : Int)
  | pstr (s : String)
  | plist (xs : List PyVal)
  | pdict (entries : List (String × PyVal))

/-- Python dictionaries with string keys, in insertion order. -/
abbrev PyDict := List (String × PyVal)

/-- First-match lookup, the semantics of `d[k]` / `d.get(k)` on our dicts
(all dicts built by this code have pairwise distinct keys). -/
def dictGet (d : PyDict) (k : String) : Option PyVal :=
  (d.find? (fun p => p.1 == k)).map (fun p => p.2)

/-- Python exceptions raised by the embedded code or its libraries. -/
inductive PyErr where
  | keyError (k : String)
  | typeError (msg : String)
  | indexError (msg : String)
  | netError (msg : String)        -- httpx transport errors (ConnectError, Timeout, ...)
  | jwtError (msg : String)        -- jose.JWTError
  | expiredSignature (msg : String) -- jose.ExpiredSignatureError
  | exception (msg : String)       -- plain Exception(...)
deriving DecidableEq

deriving instance DecidableEq for Except

/-- Rendering of `str(e)` used when an exception message is interpolated
into an error payload. -/
def pyErrStr : PyErr → String
  | .keyError k => k
  | .typeError m => m
  | .indexError m => m
  | .netError m => m
  | .jwtError m => m
  | .expiredSignature m => m
  | .exception m => m

/-- Python truthiness on an optional string (`None` and `""` are falsy). -/
def truthyOptStr : Option String → Bool
  | none => false
  | some s => !(s == "")

/-- Python truthiness of a value, as used by `introspection.get("active", False)`. -/
def truthyVal : PyVal → Bool
  | .pnone => false
  | .pbool b => b
  | .pint n => !(n == 0)
  | .pstr s => !(s == "")
  | .plist xs => !xs.isEmpty
  | .pdict es => !es.isEmpty

/-- A value that Python cannot hash (membership of `set(...)` construction). -/
def PyVal.unhashable : PyVal → Bool
  | .plist _ => true
  | .pdict _ => true
  | _ => false

/-- An error payload `{"error": msg}` as produced throughout the code base. -/
def mkError (msg : String) : PyDict := [("error", .pstr msg)]

/-- Tokenizer over characters: accumulate the current word (reversed) and
emit it at each whitespace run or at the end. -/
def wsTokensAux : List Char → List Char → List String
  | [], acc => if acc.isEmpty then [] else [String.mk acc.reverse]
  | c :: rest, acc =>
      if c.isWhitespace then
        if acc.isEmpty then wsTokensAux rest []
        else String.mk acc.reverse :: wsTokensAux rest []
      else wsTokensAux rest (c :: acc)

/-- Python `str.split()` with no argument: split on whitespace runs,
dropping empty pieces. -/
def splitWs (s : String) : List String :=
  wsTokensAux s.data []

/-- Membership of the string `r` in a Python set built from the given
values (equality of a `str` with a non-`str` value is `False`). -/
def scopeContains (xs : List PyVal) (r : String) : Bool :=
  xs.any (fun v =>
    match v with
    | .pstr t => r == t
    | _ => false)

/-!  `src/server/oauth.py` — configuration and scope checking. -/

/-- Embedding of the `OAuth2Config` dataclass (oauth.py lines 21-39). -/
structure OAuth2Config where
  enabled : Bool
  provider : String
  keycloak_url : String
  realm : String
  client_id : String
  client_secret : String
  required_scopes : List String
  token_validation_endpoint : String
  jwks_endpoint : String
  auto_refresh : Bool := false
  username : String := ""
  password : String := ""
  token_endpoint : String := ""

/-- Normalization of the token's `scope` entry to a set, as performed by
`TokenValidator.check_scopes` (oauth.py lines 398-405): a `str` is split on
whitespace, a `list` is passed to `set(...)` — which raises `TypeError`
when an element is unhashable — and any other shape yields the empty set. -/
def scopeSetOf : PyVal → Except PyErr (List PyVal)
  | .pstr s => .ok ((splitWs s).map PyVal.pstr)
  | .plist xs =>
      if xs.any PyVal.unhashable then
        .error (.typeError "unhashable type")
      else
        .ok xs
  | _ => .ok []

/-- Embedding of `TokenValidator.check_scopes` (oauth.py lines 388-419):
`required_scopes` is `self.config.required_scopes`; the token scope entry
defaults to `""` when absent; returns whether the required set minus the
token set is empty. -/
def check_scopes (required_scopes : List String) (token_data : PyDict) :
    Except PyErr Bool :=
  match scopeSetOf ((dictGet token_data "scope").getD (.pstr "")) with
  | .error e => .error e
  | .ok token_scopes => .ok (required_scopes.all (scopeContains token_scopes))

example : check_scopes ["solr:search", "solr:read"]
    [("scope", .pstr "solr:search solr:read email")] = .ok true := by decide

example : check_scopes ["solr:search", "solr:read"]
    [("scope", .pstr "solr:search")] = .ok false := by decide

example : check_scopes ["solr:search"]
    [("scope", .plist [.pstr "solr:search", .pstr "extra:scope"])] = .ok true := by rfl

example : check_scopes ["solr:search"] [("scope", .plist [.pdict []])] =
    .error (.typeError "unhashable type") := by rfl

example : check_scopes ["solr:search"] [] = .ok false := by decide

/-! `src/server/solr_client.py` — the canonical Solr client. -/

/-- Outcome of the single `httpx` GET a client method performs, as seen by
the Python code: a parsed JSON body, an HTTP status error raised by
`raise_for_status`, a transport error raised by `client.get`, or a parse
error raised by `response.json`. -/
inductive HttpOutcome where
  | ok (body : PyVal)
  | statusError (code : Nat)
  | requestError (msg : String)
  | parseError (msg : String)

/-- The exception kinds that can cross `SolrClient`'s public boundary. -/
inductive SolrRaise where
  | httpStatusError (code : Nat)
deriving DecidableEq

/-- The `params` dict built by `SolrClient.search` (solr_client.py lines
53-65): `q` falls back to the match-all sentinel when `query` is falsy,
and `fq`/`sort` are added only when truthy. -/
def searchParams (query : String) (filter_query : Option String)
    (sort : Option String) (rows : Int) (start : Int) : PyDict :=
  [("q", .pstr (if query == "" then "*:*" else query)),
   ("wt", .pstr "json"),
   ("rows", .pint rows),
   ("start", .pint start)]
  ++ (match filter_query with
      | some fq => if fq == "" then [] else [("fq", .pstr fq)]
      | none => [])
  ++ (match sort with
      | some so => if so == "" then [] else [("sort", .pstr so)]
      | none => [])

/-- Embedding of `SolrClient.search` (solr_client.py lines 37-91).  The
first component is the query-parameter dict of the GET request issued;
the second is the returned value or the exception crossing the boundary:
`httpx.HTTPStatusError` is re-raised, every other exception is caught and
turned into an error payload.  The source signature defaults are
`query="*:*"`, `filter_query=None`, `sort=None`, `rows=10`, `start=0`. -/
def SolrClient.search (query : String := "*:*")
    (filter_query : Option String := none) (sort : Option String := none)
    (rows : Int := 10) (start : Int := 0) (outcome : HttpOutcome) :
    PyDict × Except SolrRaise PyVal :=
  (searchParams query filter_query sort rows start,
   match outcome with
   | .ok body => .ok body
   | .statusError code => .error (.httpStatusError code)
   | .requestError m => .ok (.pdict (mkError ("Fehler bei der Suche: " ++ m)))
   | .parseError m => .ok (.pdict (mkError ("Fehler bei der Suche: " ++ m))))

/-- The `params` dict built by `SolrClient.get_document` (solr_client.py
lines 104-110): only `q` and `wt`, plus `fl` when a truthy field list is
given — no row limit is set. -/
def getDocumentParams (doc_id : String) (fields : Option (List String)) : PyDict :=
  [("q", .pstr ("id:" ++ doc_id)),
   ("wt", .pstr "json")]
  ++ (match fields with
      | some fs => if fs.isEmpty then [] else [("fl", .pstr (String.intercalate "," fs))]
      | none => [])

/-- Navigation `v[k]` on a parsed JSON value, with the exceptions Python
would raise. -/
def pyIndex (v : PyVal) (k : String) : Except PyErr PyVal :=
  match v with
  | .pdict es =>
      match dictGet es k with
      | some x => .ok x
      | none => .error (.keyError k)
  | .plist _ => .error (.typeError "list indices must be integers or slices, not str")
  | _ => .error (.typeError "value is not subscriptable")

/-- Navigation `v[i]` for a natural index. -/
def pyIndexNat (v : PyVal) (i : Nat) : Except PyErr PyVal :=
  match v with
  | .plist xs =>
      match xs.get? i with
      | some x => .ok x
      | none => .error (.indexError "list index out of range")
  | _ => .error (.typeError "value is not subscriptable")

/-- Python `v == n` between a JSON value and an int literal. -/
def pyEqInt (v : PyVal) (n : Int) : Bool :=
  match v with
  | .pint m => m == n
  | .pbool b => (if b then (1 : Int) else 0) == n
  | _ => false

/-- The body of `SolrClient.get_document`'s success branch (solr_client.py
lines 130-132): unwrap `result["response"]["numFound"]`, return the
not-found payload on zero matches, else `result["response"]["docs"][0]`. -/
def getDocumentUnwrap (doc_id : String) (result : PyVal) : Except PyErr PyVal := do
  let resp ← pyIndex result "response"
  let numFound ← pyIndex resp "numFound"
  if pyEqInt numFound 0 then
    pure (.pdict (mkError ("Dokument mit ID " ++ doc_id ++ " nicht gefunden")))
  else do
    let docs ← pyIndex resp "docs"
    pyIndexNat docs 0

/-- Embedding of `SolrClient.get_document` (solr_client.py lines 93-139):
first component is the issued query-parameter dict; `httpx.HTTPStatusError`
is re-raised, every other exception (transport, parse, body navigation) is
caught and turned into an error payload. -/
def SolrClient.get_document (doc_id : String)
    (fields : Option (List String) := none) (outcome : HttpOutcome) :
    PyDict × Except SolrRaise PyVal :=
  (getDocumentParams doc_id fields,
   match outcome with
   | .statusError code => .error (.httpStatusError code)
   | .requestError m => .ok (.pdict (mkError ("Fehler beim Abrufen des Dokuments: " ++ m)))
   | .parseError m => .ok (.pdict (mkError ("Fehler beim Abrufen des Dokuments: " ++ m)))
   | .ok body =>
       match getDocumentUnwrap doc_id body with
       | .ok v => .ok v
       | .error e =>
           .ok (.pdict (mkError ("Fehler beim Abrufen des Dokuments: " ++ pyErrStr e))))

/-! `src/server.py` — the legacy client variant.  Its `search` builds the
params dict with `"q": query` directly (server.py lines 71-76), with no
match-all fallback for an empty query. -/

/-- The `params` dict built by the legacy `SolrClient.search` in
`src/server.py` (lines 71-82). -/
def ServerPy.searchParams (query : String) (filter_query : Option String)
    (sort : Option String) (rows : Int) (start : Int) : PyDict :=
  [("q", .pstr query),
   ("wt", .pstr "json"),
   ("rows", .pint rows),
   ("start", .pint start)]
  ++ (match filter_query with
      | some fq => if fq == "" then [] else [("fq", .pstr fq)]
      | none => [])
  ++ (match sort with
      | some so => if so == "" then [] else [("sort", .pstr so)]
      | none => [])

example : dictGet (searchParams "" none none 10 0) "q" = some (.pstr "*:*") := by rfl
example : dictGet (ServerPy.searchParams "" none none 10 0) "q" = some (.pstr "") := by rfl
example : dictGet (getDocumentParams "doc1" none) "rows" = none := by rfl
example : dictGet (getDocumentParams "doc1" (some ["id", "title"])) "fl" =
    some (.pstr "id,title") := by rfl

/-! `src/server/oauth.py` — JWKS cache and token validation. -/

/-- The parsed JWKS document: `truthy` is the Python truthiness of the
JSON object returned by the endpoint (an empty object is falsy), `kids`
the key ids found under its `keys` entry. -/
structure JwksDoc where
  truthy : Bool
  kids : List String
deriving DecidableEq

/-- The two cache fields of a `TokenValidator` (oauth.py lines 100-101):
`_jwks_cache` and `_jwks_cache_expires` (seconds since epoch). -/
structure JwksState where
  jwks_cache : Option JwksDoc
  jwks_cache_expires : Option Nat
deriving DecidableEq

/-- Outcome of the GET against the JWKS endpoint. -/
inductive FetchOutcome where
  | ok (doc : JwksDoc)
  | raise (e : PyErr)

/-- The cache-hit test of `_fetch_jwks` (oauth.py lines 127-131):
`self._jwks_cache and self._jwks_cache_expires and utcnow() < expires`.
A `datetime` is always truthy, while the cached payload is tested by
Python truthiness. -/
def cacheFresh (s : JwksState) (now : Nat) : Bool :=
  match s.jwks_cache, s.jwks_cache_expires with
  | some doc, some e => doc.truthy && decide (now < e)
  | _, _ => false

/-- Embedding of `TokenValidator._fetch_jwks` (oauth.py lines 114-153):
on a cache hit the cached document is returned with no fetch; otherwise
one fetch happens — on success both cache fields are replaced (expiry
`now + 3600`, i.e. one hour), on failure the exception is re-raised and
the fields are left unchanged.  The third component counts the HTTP
fetches performed by this call. -/
def fetchJwksStep (s : JwksState) (now : Nat) (o : FetchOutcome) :
    Except PyErr JwksDoc × JwksState × Nat :=
  if cacheFresh s now then
    (.ok (s.jwks_cache.getD ⟨false, []⟩), s, 0)
  else
    match o with
    | .ok doc => (.ok doc, ⟨some doc, some (now + 3600)⟩, 1)
    | .raise e => (.error e, s, 1)

/-- A sequence of sequential `_fetch_jwks` calls, each with its call time
and fetch outcome; returns the final cache state and the total number of
HTTP fetches performed. -/
def runFetches (s : JwksState) : List (Nat × FetchOutcome) → JwksState × Nat
  | [] => (s, 0)
  | (now, o) :: rest =>
      match fetchJwksStep s now o with
      | (_, s1, c) =>
          match runFetches s1 rest with
          | (s2, cs) => (s2, c + cs)

/-- Outcome of `jwt.get_unverified_header(token)`: the `kid` entry of the
decoded header (`None` when absent), or a raised `JWTError` on a
malformed token. -/
inductive HeaderOutcome where
  | ok (kid : Option String)
  | raise (e : PyErr)

/-- Outcome of `jwt.decode(token, key, ...)`: the verified claims, or a
raised `ExpiredSignatureError` / `JWTError`. -/
inductive DecodeOutcome where
  | ok (claims : PyDict)
  | raise (e : PyErr)

/-- Outcome of the POST against the introspection endpoint. -/
inductive IntrospectOutcome where
  | ok (body : PyDict)
  | raise (e : PyErr)

/-- Embedding of `TokenValidator.validate_token_local` (oauth.py lines
155-212).  The JWKS fetch result, header decode and signature check are
supplied as oracles; every exception (including a network error raised
from `_fetch_jwks`) propagates, since the handlers at lines 207-212 only
log and re-raise. -/
def validate_token_local (st : JwksState) (now : Nat) (fo : FetchOutcome)
    (ho : HeaderOutcome) (deco : DecodeOutcome) :
    Except PyErr PyDict × JwksState :=
  match fetchJwksStep st now fo with
  | (.error e, st1, _) => (.error e, st1)
  | (.ok jwks, st1, _) =>
      match ho with
      | .raise e => (.error e, st1)
      | .ok none => (.error (.jwtError "Token header missing kid field"), st1)
      | .ok (some kid) =>
          if jwks.kids.contains kid then
            match deco with
            | .raise e => (.error e, st1)
            | .ok claims => (.ok claims, st1)
          else
            (.error (.jwtError ("No matching key found in JWKS for kid: " ++ kid)), st1)

/-- Embedding of `TokenValidator.validate_token_introspection` (oauth.py
lines 214-252): transport and HTTP errors are re-raised by the handler at
lines 250-252; an `active: false` response raises a plain `Exception`. -/
def validate_token_introspection (intr : IntrospectOutcome) : Except PyErr PyDict :=
  match intr with
  | .raise e => .error e
  | .ok body =>
      if truthyVal ((dictGet body "active").getD (.pbool false)) then
        .ok body
      else
        .error (.exception "Token is not active (revoked or expired)")

/-- The sentinel claim set returned when OAuth is disabled (oauth.py
line 273). -/
def sentinelClaims : PyDict := [("sub", .pstr "anonymous"), ("scope", .pstr "all")]

/-- Embedding of `TokenValidator.validate_token` (oauth.py lines 254-278):
with OAuth disabled the sentinel is returned at once; otherwise the
configured strategy runs.  The state component threads the JWKS cache. -/
def validate_token (cfg : OAuth2Config) (use_introspection : Bool)
    (st : JwksState) (now : Nat) (fo : FetchOutcome) (ho : HeaderOutcome)
    (deco : DecodeOutcome) (intr : IntrospectOutcome) :
    Except PyErr PyDict × JwksState :=
  if cfg.enabled then
    if use_introspection then
      (validate_token_introspection intr, st)
    else
      validate_token_local st now fo ho deco
  else
    (.ok sentinelClaims, st)

/-! `src/server/mcp_server.py` — token validation wrapper and tools. -/

/-- The `OAuthError` hierarchy of oauth.py lines 422-444; these are the
only subclasses defined — there is no provider-unreachable kind. -/
inductive OAuthErrorT where
  | tokenMissing (msg : String)
  | tokenInvalid (msg : String)
  | insufficientScopes (msg : String)
deriving DecidableEq

/-- The constructor kind of an `OAuthError`, for distinguishability
statements. -/
inductive OAuthKind where
  | tokenMissingK
  | tokenInvalidK
  | insufficientScopesK
deriving DecidableEq

/-- Kind of an `OAuthErrorT`. -/
def oauthKind : OAuthErrorT → OAuthKind
  | .tokenMissing _ => .tokenMissingK
  | .tokenInvalid _ => .tokenInvalidK
  | .insufficientScopes _ => .insufficientScopesK

/-- An exception escaping `validate_oauth_token`: an `OAuthError` or any
other Python exception (e.g. one raised by `check_scopes`). -/
inductive ToolError where
  | oauth (e : OAuthErrorT)
  | py (e : PyErr)
deriving DecidableEq

/-- Embedding of `validate_oauth_token` (mcp_server.py lines 131-183):
skip when OAuth is disabled; raise `TokenMissingError` on a falsy token;
wrap any exception from `validate_token` (called with the default
`use_introspection=False`) into `TokenInvalidError`; raise
`InsufficientScopesError` when `check_scopes` returns false.  An
exception raised by `check_scopes` itself is not caught here. -/
def validate_oauth_token (cfg : OAuth2Config) (token : Option String)
    (st : JwksState) (now : Nat) (fo : FetchOutcome) (ho : HeaderOutcome)
    (deco : DecodeOutcome) (intr : IntrospectOutcome) :
    Except ToolError (Option PyDict) × JwksState :=
  if cfg.enabled then
    if truthyOptStr token then
      match validate_token cfg false st now fo ho deco intr with
      | (.error e, st1) =>
          (.error (.oauth (.tokenInvalid ("Invalid access token: " ++ pyErrStr e))), st1)
      | (.ok claims, st1) =>
          match check_scopes cfg.required_scopes claims with
          | .error pe => (.error (.py pe), st1)
          | .ok false =>
              (.error (.oauth (.insufficientScopes
                ("Token missing required scopes. Required: " ++
                  String.intercalate ", " cfg.required_scopes))), st1)
          | .ok true => (.ok (some claims), st1)
    else
      (.error (.oauth (.tokenMissing
        ("OAuth is enabled but no access token provided. " ++
          "Include token in Authorization header: Bearer <token>"))), st)
  else
    (.ok none, st)

/-- The message of an `OAuthError`, as `str(e)` renders it. -/
def oauthMsg : OAuthErrorT → String
  | .tokenMissing m => m
  | .tokenInvalid m => m
  | .insufficientScopes m => m

/-- An HTTP request issued to the search engine, with the query-parameter
dict it carries. -/
inductive EngineEvent where
  | searchReq (params : PyDict)
  | docReq (params : PyDict)

/-- The keyword parameters accepted by `SolrClient.search`
(solr_client.py lines 37-39). -/
def solrSearchParamNames : List String :=
  ["query", "filter_query", "sort", "rows", "start"]

/-- The keyword arguments the `search` tool passes to
`solr_client.search` (mcp_server.py lines 275-278). -/
def searchToolForwardedKwargs : List String :=
  ["query", "filter_query", "sort", "rows", "start",
   "facet_fields", "highlight_fields"]

/-- Python call semantics: a call raises `TypeError` when a keyword
argument does not appear among the callee's parameters; the first
offending name is reported. -/
def searchCallTypeError : Option PyErr :=
  match searchToolForwardedKwargs.filter
      (fun k => !(solrSearchParamNames.contains k)) with
  | [] => none
  | k :: _ => some (.typeError ("search() got an unexpected keyword argument " ++ k))

/-- Arguments of the `search` MCP tool (mcp_server.py lines 232-241),
with the source defaults. -/
structure SearchArgs where
  query : String
  filter_query : Option String := none
  sort : Option String := none
  rows : Int := 10
  start : Int := 0
  facet_fields : Option (List String) := none
  highlight_fields : Option (List String) := none
  access_token : Option String := none

/-- Embedding of the `search` MCP tool (mcp_server.py lines 232-284).
Returns the tool's response and the engine requests issued.  Control
flow of the source: OAuth validation first (an `OAuthError` becomes an
authentication-failure payload); then the call
`solr_client.search(query=..., ..., facet_fields=..., highlight_fields=...)`,
whose keyword arguments are checked against `SolrClient.search`'s
parameters — a mismatch raises `TypeError` before any request is issued;
any exception reaching the outer handler becomes an error payload. -/
def searchTool (cfg : OAuth2Config) (st : JwksState) (now : Nat)
    (fo : FetchOutcome) (ho : HeaderOutcome) (deco : DecodeOutcome)
    (intr : IntrospectOutcome) (args : SearchArgs) (outcome : HttpOutcome) :
    PyVal × List EngineEvent :=
  match (validate_oauth_token cfg args.access_token st now fo ho deco intr).1 with
  | .error (.oauth e) =>
      (.pdict (mkError ("Authentication failed: " ++ oauthMsg e)), [])
  | .error (.py e) =>
      (.pdict (mkError ("Fehler bei der Verarbeitung der Suche: " ++ pyErrStr e)), [])
  | .ok _ =>
      match searchCallTypeError with
      | some e =>
          (.pdict (mkError ("Fehler bei der Verarbeitung der Suche: " ++ pyErrStr e)), [])
      | none =>
          match SolrClient.search args.query args.filter_query args.sort
              args.rows args.start outcome with
          | (params, .ok body) => (body, [.searchReq params])
          | (params, .error (.httpStatusError code)) =>
              (.pdict (mkError ("Fehler bei der Verarbeitung der Suche: " ++
                "HTTP status error " ++ toString code)), [.searchReq params])

/-- Arguments of the `get_document` MCP tool (mcp_server.py lines
294-298), with the source defaults. -/
structure GetDocArgs where
  id : String
  fields : Option (List String) := none
  access_token : Option String := none

/-- Embedding of the `get_document` MCP tool (mcp_server.py lines
294-331): OAuth validation first, then
`solr_client.get_document(doc_id=id, fields=fields)` — whose keyword
arguments match the callee's parameters — and a catch-all handler that
turns any exception (including a re-raised `httpx.HTTPStatusError`) into
an error payload. -/
def getDocumentTool (cfg : OAuth2Config) (st : JwksState) (now : Nat)
    (fo : FetchOutcome) (ho : HeaderOutcome) (deco : DecodeOutcome)
    (intr : IntrospectOutcome) (args : GetDocArgs) (outcome : HttpOutcome) :
    PyVal × List EngineEvent :=
  match (validate_oauth_token cfg args.access_token st now fo ho deco intr).1 with
  | .error (.oauth e) =>
      (.pdict (mkError ("Authentication failed: " ++ oauthMsg e)), [])
  | .error (.py e) =>
      (.pdict (mkError ("Fehler beim Abrufen des Dokuments: " ++ pyErrStr e)), [])
  | .ok _ =>
      match SolrClient.get_document args.id args.fields outcome with
      | (params, .ok body) => (body, [.docReq params])
      | (params, .error (.httpStatusError code)) =>
          (.pdict (mkError ("Fehler beim Abrufen des Dokuments: " ++
            "HTTP status error " ++ toString code)), [.docReq params])

/-- A disabled-OAuth configuration with the environment-default fields of
`OAuth2Config.from_env` (oauth.py lines 40-80). -/
def cfgDisabled : OAuth2Config :=
  { enabled := false
    provider := "keycloak"
    keycloak_url := "http://localhost:8080"
    realm := "solr-mcp"
    client_id := "solr-search-server"
    client_secret := ""
    required_scopes := ["solr:search", "solr:read"]
    token_validation_endpoint :=
      "http://localhost:8080/realms/solr-mcp/protocol/openid-connect/token/introspect"
    jwks_endpoint := "http://localhost:8080/realms/solr-mcp/protocol/openid-connect/certs"
    token_endpoint := "http://localhost:8080/realms/solr-mcp/protocol/openid-connect/token" }

/-- The same configuration with OAuth enabled. -/
def cfgEnabled : OAuth2Config :=
  { cfgDisabled with enabled := true }

/-- An empty JWKS cache, the state right after `TokenValidator.__init__`. -/
def emptyJwksState : JwksState := ⟨none, none⟩

/-! Helper lemmas shared by several claim proofs. -/

/-- Membership of `r` in the set built from `xs.map PyVal.pstr` is plain
list membership. -/
theorem scopeContains_map_pstr_iff (xs : List String) (r : String) :
    scopeContains (xs.map PyVal.pstr) r = true ↔ r ∈ xs := by
  induction xs with
  | nil => simp [scopeContains]
  | cons a t ih =>
      simp only [scopeContains, List.map_cons, List.any_cons] at ih ⊢
      rw [Bool.or_eq_true, beq_iff_eq]
      simp [ih, List.mem_cons]

/-- A list of string values contains no unhashable element. -/
theorem map_pstr_no_unhashable (ss : List String) :
    (ss.map PyVal.pstr).any PyVal.unhashable = false := by
  induction ss with
  | nil => rfl
  | cons a t ih => simp only [List.map_cons, List.any_cons, PyVal.unhashable, Bool.false_or, ih]

/-! Theorems settling the claims. -/

/-- C1: with authentication disabled (so OAuth validation is skipped),
every invocation of the `search` MCP tool — any query, any combination of
optional arguments, any engine behaviour — returns an `{error: ...}`
payload and never a Solr result envelope, and issues no engine request:
the tool forwards `facet_fields` and `highlight_fields` keyword arguments
to `SolrClient.search`, whose signature does not accept them, and the
resulting `TypeError` is caught by the catch-all handler. -/
theorem c1_search_tool_always_errors (cfg : OAuth2Config) (st : JwksState)
    (now : Nat) (fo : FetchOutcome) (ho : HeaderOutcome) (deco : DecodeOutcome)
    (intr : IntrospectOutcome) (args : SearchArgs) (outcome : HttpOutcome)
    (h : cfg.enabled = false) :
    searchTool cfg st now fo ho deco intr args outcome =
      (.pdict (mkError ("Fehler bei der Verarbeitung der Suche: " ++
        "search() got an unexpected keyword argument facet_fields")), []) := by
  unfold searchTool validate_oauth_token
  rw [h]
  rfl

/-- Closed instance of `c1_search_tool_always_errors` at a concrete
invocation. -/
theorem c1_witness :
    cfgDisabled.enabled = false ∧
    searchTool cfgDisabled emptyJwksState 0 (.raise (.netError "down"))
        (.ok none) (.raise (.jwtError "bad")) (.raise (.netError "down"))
        { query := "title:solr", facet_fields := some ["category"],
          highlight_fields := some ["title"] }
        (.ok (.pdict [("response", .pdict [])])) =
      (.pdict (mkError ("Fehler bei der Verarbeitung der Suche: " ++
        "search() got an unexpected keyword argument facet_fields")), []) :=
  ⟨rfl, c1_search_tool_always_errors cfgDisabled emptyJwksState 0
    (.raise (.netError "down")) (.ok none) (.raise (.jwtError "bad"))
    (.raise (.netError "down"))
    { query := "title:solr", facet_fields := some ["category"],
      highlight_fields := some ["title"] }
    (.ok (.pdict [("response", .pdict [])])) rfl⟩

/-- C2: evaluation of the code at the failing input.  A `search` tool
call supplying facet and highlight fields does not produce an outbound
Solr query with faceting or highlighting parameters: the forwarded
keyword arguments are rejected by `SolrClient.search`, the tool returns
an error payload, and no engine request is issued at all. -/
theorem c2_facet_request_never_built :
    searchTool cfgDisabled emptyJwksState 0 (.ok ⟨true, []⟩) (.ok none)
        (.ok []) (.ok [])
        { query := "machine learning", facet_fields := some ["category"],
          highlight_fields := some ["title"] }
        (.ok (.pdict [("response", .pdict [("numFound", .pint 1)])])) =
      (.pdict (mkError ("Fehler bei der Verarbeitung der Suche: " ++
        "search() got an unexpected keyword argument facet_fields")), []) := rfl

/-- C3 (amended): with `enabled=false`, `validate_token` returns the
anonymous sentinel `{"sub": "anonymous", "scope": "all"}` regardless of
strategy, cache state or any oracle (so no other configuration field is
consulted); the sentinel passes `check_scopes` exactly when every
configured required scope is the literal string `"all"` — not for an
arbitrary required-scope set. -/
theorem c3_disabled_validate_sentinel (cfg : OAuth2Config)
    (use_introspection : Bool) (st : JwksState) (now : Nat)
    (fo : FetchOutcome) (ho : HeaderOutcome) (deco : DecodeOutcome)
    (intr : IntrospectOutcome) (h : cfg.enabled = false) :
    validate_token cfg use_introspection st now fo ho deco intr =
      (.ok sentinelClaims, st) ∧
    check_scopes cfg.required_scopes sentinelClaims =
      .ok (cfg.required_scopes.all (fun r => r == "all")) := by
  constructor
  · unfold validate_token
    rw [h]
    rfl
  · have h2 : scopeContains [PyVal.pstr "all"] = fun r => r == "all" := by
      funext r
      simp [scopeContains]
    show Except.ok (cfg.required_scopes.all (scopeContains [PyVal.pstr "all"])) =
      Except.ok (cfg.required_scopes.all fun r => r == "all")
    rw [h2]

/-- The claim C3 as stated is false at the environment-default
configuration with OAuth disabled: `validate_token` does return the
sentinel, but the sentinel does not satisfy `check_scopes` for the
configured required scopes `["solr:search", "solr:read"]`, because the
scope `"all"` is a literal string, not a wildcard. -/
theorem c3_counterexample :
    validate_token cfgDisabled false emptyJwksState 0 (.raise (.netError "down"))
        (.ok none) (.raise (.jwtError "bad")) (.raise (.netError "down")) =
      (.ok sentinelClaims, emptyJwksState) ∧
    check_scopes cfgDisabled.required_scopes sentinelClaims = .ok false :=
  ⟨rfl, rfl⟩

/-- Closed instance of `c3_disabled_validate_sentinel` at a concrete
disabled configuration. -/
theorem c3_witness :
    validate_token cfgDisabled true emptyJwksState 7 (.ok ⟨true, ["k"]⟩)
        (.ok (some "k")) (.ok [("sub", .pstr "alice")]) (.ok [("active", .pbool true)]) =
      (.ok sentinelClaims, emptyJwksState) ∧
    check_scopes cfgDisabled.required_scopes sentinelClaims =
      .ok (cfgDisabled.required_scopes.all (fun r => r == "all")) :=
  c3_disabled_validate_sentinel cfgDisabled true emptyJwksState 7
    (.ok ⟨true, ["k"]⟩) (.ok (some "k")) (.ok [("sub", .pstr "alice")])
    (.ok [("active", .pbool true)]) rfl

/-- C4 (amended): `check_scopes` decides required-scope inclusion — it
returns `ok true` exactly when every required scope is present in the
token scope set — both when the scope entry is a whitespace-delimited
string and when it is a list of strings; and the only way it can throw is
the `TypeError` raised while normalizing a scope list that contains an
unhashable element (a nested list or object), so it is not totally
exception-free. -/
theorem c4_check_scopes_subset :
    (∀ (required : List String) (claims : PyDict) (s : String),
      dictGet claims "scope" = some (.pstr s) →
      (check_scopes required claims = .ok true ↔ ∀ r ∈ required, r ∈ splitWs s))
    ∧ (∀ (required : List String) (claims : PyDict) (ss : List String),
      dictGet claims "scope" = some (.plist (ss.map PyVal.pstr)) →
      (check_scopes required claims = .ok true ↔ ∀ r ∈ required, r ∈ ss))
    ∧ (∀ (required : List String) (claims : PyDict) (e : PyErr),
      check_scopes required claims = .error e →
      ∃ xs, dictGet claims "scope" = some (.plist xs) ∧
        xs.any PyVal.unhashable = true) := by
  refine ⟨?_, ?_, ?_⟩
  · intro required claims s h
    have heq : check_scopes required claims =
        .ok (required.all (scopeContains ((splitWs s).map PyVal.pstr))) := by
      unfold check_scopes
      rw [h]
      rfl
    rw [heq]
    simp only [Except.ok.injEq, List.all_eq_true, scopeContains_map_pstr_iff]
  · intro required claims ss h
    have hsc : scopeSetOf ((some (PyVal.plist (ss.map PyVal.pstr))).getD (.pstr "")) =
        .ok (ss.map PyVal.pstr) := by
      simp [scopeSetOf, map_pstr_no_unhashable ss]
    have heq : check_scopes required claims =
        .ok (required.all (scopeContains (ss.map PyVal.pstr))) := by
      unfold check_scopes
      rw [h, hsc]
    rw [heq]
    simp only [Except.ok.injEq, List.all_eq_true, scopeContains_map_pstr_iff]
  · intro required claims e h
    unfold check_scopes at h
    cases hd : dictGet claims "scope" with
    | none =>
        rw [hd] at h
        simp [scopeSetOf] at h
    | some v =>
        rw [hd] at h
        cases v with
        | plist xs =>
            cases hu : xs.any PyVal.unhashable with
            | false => simp [scopeSetOf, hu] at h
            | true => exact ⟨xs, rfl, hu⟩
        | pnone => simp [scopeSetOf] at h
        | pbool b => simp [scopeSetOf] at h
        | pint n => simp [scopeSetOf] at h
        | pstr t => simp [scopeSetOf] at h
        | pdict es => simp [scopeSetOf] at h

/-- The claim C4 as stated is false: `check_scopes` throws a `TypeError`
on the claim set `{"scope": [{}]}`, whose scope list contains an
unhashable element, so it does not hold that it never throws for any
claim-set input. -/
theorem c4_counterexample :
    check_scopes ["solr:search"] [("scope", .plist [.pdict []])] =
      .error (.typeError "unhashable type") := rfl

/-- Closed instance of `c4_check_scopes_subset` at concrete claim sets. -/
theorem c4_witness :
    (check_scopes ["solr:search"] [("scope", .pstr "solr:search solr:read")] =
        .ok true ↔ ∀ r ∈ ["solr:search"], r ∈ splitWs "solr:search solr:read")
    ∧ (check_scopes ["solr:read"]
        [("scope", .plist (["solr:read", "email"].map PyVal.pstr))] =
        .ok true ↔ ∀ r ∈ ["solr:read"], r ∈ ["solr:read", "email"])
    ∧ (∃ xs, dictGet [("scope", PyVal.plist [.pdict []])] "scope" =
        some (.plist xs) ∧ xs.any PyVal.unhashable = true) :=
  ⟨c4_check_scopes_subset.1 ["solr:search"] _ "solr:search solr:read" rfl,
   c4_check_scopes_subset.2.1 ["solr:read"] _ ["solr:read", "email"] rfl,
   c4_check_scopes_subset.2.2 ["solr:search"] [("scope", PyVal.plist [.pdict []])]
     (.typeError "unhashable type") rfl⟩

/-- C5 (amended): for the canonical client in `src/server/solr_client.py`
an empty (or defaulted) query yields the match-all sentinel as the
outbound `q` parameter and the request is processed exactly like an
explicit `*:*` query — never as an error; the legacy client in
`src/server.py` does not share this property (see its counterexample). -/
theorem c5_empty_query_match_all :
    (∀ (fq so : Option String) (rows start : Int),
      dictGet (searchParams "" fq so rows start) "q" = some (.pstr "*:*"))
    ∧ (∀ (fq so : Option String) (rows start : Int) (outcome : HttpOutcome),
      SolrClient.search "" fq so rows start outcome =
        SolrClient.search "*:*" fq so rows start outcome)
    ∧ (∀ (fq so : Option String) (rows start : Int),
      dictGet (searchParams "*:*" fq so rows start) "q" = some (.pstr "*:*")) :=
  ⟨fun _ _ _ _ => rfl, fun _ _ _ _ _ => rfl, fun _ _ _ _ => rfl⟩

/-- The claim C5 as stated is false for the `SolrClient.search` variant in
`src/server.py` (cited by the claim): with an empty query string the
outbound `q` parameter is the empty string, not the match-all sentinel. -/
theorem c5_counterexample :
    dictGet (ServerPy.searchParams "" none none 10 0) "q" = some (.pstr "") ∧
    PyVal.pstr "" ≠ PyVal.pstr "*:*" :=
  ⟨rfl, by simp⟩

/-- C6: `SolrClient.search` never raises across its public boundary
except for engine-reported HTTP status errors — the only exception that
can escape is `httpx.HTTPStatusError` re-raised from `raise_for_status`;
every transport or parse failure is caught and returned as an
`{error: message}` payload, and a successful response body is returned
as-is. -/
theorem c6_search_error_boundary (query : String) (fq so : Option String)
    (rows start : Int) (outcome : HttpOutcome) :
    (∀ e, (SolrClient.search query fq so rows start outcome).2 = .error e →
      ∃ code, outcome = .statusError code ∧ e = .httpStatusError code)
    ∧ (∀ m, outcome = .requestError m ∨ outcome = .parseError m →
      (SolrClient.search query fq so rows start outcome).2 =
        .ok (.pdict (mkError ("Fehler bei der Suche: " ++ m))))
    ∧ (∀ body, outcome = .ok body →
      (SolrClient.search query fq so rows start outcome).2 = .ok body) := by
  refine ⟨?_, ?_, ?_⟩
  · intro e he
    cases outcome with
    | ok body => simp [SolrClient.search] at he
    | statusError code =>
        refine ⟨code, rfl, ?_⟩
        simpa [SolrClient.search] using he.symm
    | requestError m => simp [SolrClient.search] at he
    | parseError m => simp [SolrClient.search] at he
  · intro m hm
    rcases hm with h | h <;> rw [h] <;> rfl
  · intro body hb
    rw [hb]
    rfl

/-- Closed instance of `c6_search_error_boundary`: an engine HTTP error
propagates, while a transport failure is flattened into an error
payload. -/
theorem c6_witness :
    (∃ code, (HttpOutcome.statusError 500) = HttpOutcome.statusError code ∧
      SolrRaise.httpStatusError 500 = .httpStatusError code)
    ∧ (SolrClient.search "*:*" none none 10 0 (.requestError "conn refused")).2 =
      .ok (.pdict (mkError ("Fehler bei der Suche: " ++ "conn refused"))) :=
  ⟨(c6_search_error_boundary "*:*" none none 10 0 (.statusError 500)).1
      (.httpStatusError 500) rfl,
   (c6_search_error_boundary "*:*" none none 10 0 (.requestError "conn refused")).2.1
      "conn refused" (Or.inl rfl)⟩

/-- C7 (amended): `get_document` issues a single search whose `q`
parameter is `id:<doc_id>` with no explicit row limit (the engine default
applies — contrary to the claimed row limit 1), and a search matching
zero documents yields the `{error: ...}` not-found payload without any
exception crossing the boundary. -/
theorem c7_get_document_lookup (doc_id : String) (fields : Option (List String))
    (outcome : HttpOutcome) :
    dictGet (SolrClient.get_document doc_id fields outcome).1 "q" =
      some (.pstr ("id:" ++ doc_id))
    ∧ dictGet (SolrClient.get_document doc_id fields outcome).1 "rows" = none
    ∧ (∀ body resp, outcome = .ok body →
        pyIndex body "response" = .ok resp →
        pyIndex resp "numFound" = .ok (.pint 0) →
        (SolrClient.get_document doc_id fields outcome).2 =
          .ok (.pdict (mkError ("Dokument mit ID " ++ doc_id ++ " nicht gefunden")))) := by
  refine ⟨rfl, ?_, ?_⟩
  · show dictGet (getDocumentParams doc_id fields) "rows" = none
    cases fields with
    | none => rfl
    | some fs =>
        cases hfs : fs.isEmpty <;>
          simp [getDocumentParams, dictGet, hfs, List.find?]
  · intro body resp hb hresp hnum
    rw [hb]
    have hu : getDocumentUnwrap doc_id body =
        .ok (.pdict (mkError ("Dokument mit ID " ++ doc_id ++ " nicht gefunden"))) := by
      unfold getDocumentUnwrap
      rw [hresp]
      simp only [bind, Except.bind]
      rw [hnum]
      rfl
    show (match getDocumentUnwrap doc_id body with
          | Except.ok v => Except.ok v
          | Except.error e =>
              Except.ok (PyVal.pdict
                (mkError ("Fehler beim Abrufen des Dokuments: " ++ pyErrStr e)))) =
      Except.ok (PyVal.pdict (mkError ("Dokument mit ID " ++ doc_id ++ " nicht gefunden")))
    rw [hu]

/-- The claim C7 as stated is false: the request built by `get_document`
carries no `rows` parameter at all — in particular not the claimed row
limit 1 — as shown by evaluating the full parameter dict of a concrete
lookup. -/
theorem c7_counterexample :
    (SolrClient.get_document "doc1" none (.ok (.pdict []))).1 =
      [("q", .pstr "id:doc1"), ("wt", .pstr "json")] ∧
    dictGet (SolrClient.get_document "doc1" none (.ok (.pdict []))).1 "rows" = none :=
  ⟨rfl, rfl⟩

/-- Closed instance of `c7_get_document_lookup` at a concrete zero-match
response. -/
theorem c7_witness :
    (SolrClient.get_document "doc42" none
        (.ok (.pdict [("response", .pdict [("numFound", .pint 0), ("docs", .plist [])])]))).2 =
      .ok (.pdict (mkError ("Dokument mit ID " ++ "doc42" ++ " nicht gefunden"))) :=
  (c7_get_document_lookup "doc42" none
      (.ok (.pdict [("response", .pdict [("numFound", .pint 0), ("docs", .plist [])])]))).2.2
    (.pdict [("response", .pdict [("numFound", .pint 0), ("docs", .plist [])])])
    (.pdict [("numFound", .pint 0), ("docs", .plist [])]) rfl rfl rfl

/-- C8 (amended): a network failure while talking to the identity
provider always makes token validation fail — it is never converted into
a valid result.  On the local (JWKS) path used by the tools, the failure
surfaces through `validate_oauth_token` as a `TokenInvalidError`, which
is distinguishable from `TokenMissingError` and
`InsufficientScopesError` but not from other invalid-token failures: the
code defines no provider-unreachable error kind.  On the introspection
path the transport error propagates unwrapped out of `validate_token`. -/
theorem c8_network_failure_never_valid :
    (∀ (cfg : OAuth2Config) (token : Option String) (st : JwksState) (now : Nat)
        (e : PyErr) (ho : HeaderOutcome) (deco : DecodeOutcome)
        (intr : IntrospectOutcome),
      cfg.enabled = true → truthyOptStr token = true → cacheFresh st now = false →
      validate_oauth_token cfg token st now (.raise e) ho deco intr =
        (.error (.oauth (.tokenInvalid ("Invalid access token: " ++ pyErrStr e))), st))
    ∧ (∀ (cfg : OAuth2Config) (st : JwksState) (now : Nat) (fo : FetchOutcome)
        (ho : HeaderOutcome) (deco : DecodeOutcome) (m : String),
      cfg.enabled = true →
      validate_token cfg true st now fo ho deco (.raise (.netError m)) =
        (.error (.netError m), st))
    ∧ (∀ m m', oauthKind (.tokenInvalid m) ≠ oauthKind (.tokenMissing m') ∧
        oauthKind (.tokenInvalid m) ≠ oauthKind (.insufficientScopes m')) := by
  refine ⟨?_, ?_, ?_⟩
  · intro cfg token st now e ho deco intr hen htok hfresh
    unfold validate_oauth_token validate_token validate_token_local fetchJwksStep
    rw [hen, htok, hfresh]
    rfl
  · intro cfg st now fo ho deco m hen
    unfold validate_token
    rw [hen]
    rfl
  · intro m m'
    refine ⟨fun h => ?_, fun h => ?_⟩ <;> simp [oauthKind] at h

/-- The claim C8 as stated is false: a provider network failure and an
invalid-signature failure produce the very same error kind
(`TokenInvalidError`), so the network failure is not distinguishable from
`TokenInvalid` — the code defines no provider-unreachable kind. -/
theorem c8_counterexample :
    (validate_oauth_token cfgEnabled (some "tok") emptyJwksState 0
        (.raise (.netError "connection refused")) (.ok (some "kid1"))
        (.ok [("sub", .pstr "alice")]) (.ok [])).1 =
      .error (.oauth (.tokenInvalid "Invalid access token: connection refused"))
    ∧ (validate_oauth_token cfgEnabled (some "tok") emptyJwksState 0
        (.ok ⟨true, ["kid1"]⟩) (.ok (some "kid1"))
        (.raise (.jwtError "Signature verification failed")) (.ok [])).1 =
      .error (.oauth (.tokenInvalid "Invalid access token: Signature verification failed"))
    ∧ oauthKind (.tokenInvalid "Invalid access token: connection refused") =
      oauthKind (.tokenInvalid "Invalid access token: Signature verification failed") :=
  ⟨rfl, rfl, rfl⟩

/-- Closed instance of `c8_network_failure_never_valid` at a concrete
enabled configuration with a timed-out provider. -/
theorem c8_witness :
    (validate_oauth_token cfgEnabled (some "tok") emptyJwksState 5
        (.raise (.netError "timeout")) (.ok (some "kid1"))
        (.ok [("sub", .pstr "alice")]) (.ok [])) =
      (.error (.oauth (.tokenInvalid ("Invalid access token: " ++
        pyErrStr (.netError "timeout")))), emptyJwksState)
    ∧ validate_token cfgEnabled true emptyJwksState 5 (.raise (.netError "timeout"))
        (.ok (some "kid1")) (.ok [("sub", .pstr "alice")])
        (.raise (.netError "introspect down")) =
      (.error (.netError "introspect down"), emptyJwksState) :=
  ⟨c8_network_failure_never_valid.1 cfgEnabled (some "tok") emptyJwksState 5
      (.netError "timeout") (.ok (some "kid1")) (.ok [("sub", .pstr "alice")])
      (.ok []) rfl rfl rfl,
   c8_network_failure_never_valid.2.1 cfgEnabled emptyJwksState 5
      (.raise (.netError "timeout")) (.ok (some "kid1"))
      (.ok [("sub", .pstr "alice")]) "introspect down" rfl⟩

/-- C9 (amended): the JWKS cache of `_fetch_jwks` serves a cached
document with no network fetch whenever the cache test passes (cached
payload truthy and current time before the cached expiry); under repeated
sequential calls within the validity window of a truthy cached payload no
fetch at all occurs; and a call for which the cache test fails performs
exactly one fetch which, on success, replaces both the cached payload and
the expiry timestamp.  The truthiness proviso is necessary: a falsy
cached payload is refetched on every call (see the counterexample). -/
theorem c9_jwks_cache_window :
    (∀ (s : JwksState) (now : Nat) (o : FetchOutcome) (doc : JwksDoc),
      s.jwks_cache = some doc → cacheFresh s now = true →
      fetchJwksStep s now o = (.ok doc, s, 0))
    ∧ (∀ (doc : JwksDoc) (e : Nat) (calls : List (Nat × FetchOutcome)),
      doc.truthy = true → (∀ p ∈ calls, p.1 < e) →
      runFetches ⟨some doc, some e⟩ calls = (⟨some doc, some e⟩, 0))
    ∧ (∀ (s : JwksState) (now : Nat) (doc : JwksDoc),
      cacheFresh s now = false →
      fetchJwksStep s now (.ok doc) = (.ok doc, ⟨some doc, some (now + 3600)⟩, 1)) := by
  refine ⟨?_, ?_, ?_⟩
  · intro s now o doc hc hf
    unfold fetchJwksStep
    rw [hf, hc]
    rfl
  · intro doc e calls ht hall
    induction calls with
    | nil => rfl
    | cons p rest ih =>
        have hf : cacheFresh ⟨some doc, some e⟩ p.1 = true := by
          show (doc.truthy && decide (p.1 < e)) = true
          rw [ht]
          simpa using hall p (List.mem_cons_self p rest)
        have hstep : fetchJwksStep ⟨some doc, some e⟩ p.1 p.2 =
            (.ok doc, ⟨some doc, some e⟩, 0) := by
          unfold fetchJwksStep
          rw [hf]
          rfl
        have ihr := ih (fun q hq => hall q (List.mem_cons_of_mem p hq))
        show runFetches ⟨some doc, some e⟩ (p :: rest) = (⟨some doc, some e⟩, 0)
        unfold runFetches
        rw [hstep]
        show (match runFetches ⟨some doc, some e⟩ rest with
              | (s2, cs) => (s2, 0 + cs)) = (⟨some doc, some e⟩, 0)
        rw [ihr]
  · intro s now doc hf
    unfold fetchJwksStep
    rw [hf]
    rfl

/-- The claim C9 as stated is false on a reachable trajectory: a JWKS
endpoint answering with an empty (falsy) JSON object leads to a cached
payload that the truthiness test treats as absent, so a second call
before the cached expiry performs a second fetch — two fetches within one
cache-validity window, and a fetch at a time strictly before the cached
expiry. -/
theorem c9_counterexample :
    runFetches emptyJwksState [(0, .ok ⟨false, []⟩), (10, .ok ⟨false, []⟩)] =
      (⟨some ⟨false, []⟩, some 3610⟩, 2) ∧ 10 < 3600 :=
  ⟨rfl, by decide⟩

/-- Closed instance of `c9_jwks_cache_window` at concrete cache states. -/
theorem c9_witness :
    fetchJwksStep ⟨some ⟨true, ["k1"]⟩, some 100⟩ 5 (.raise (.netError "down")) =
      (.ok ⟨true, ["k1"]⟩, ⟨some ⟨true, ["k1"]⟩, some 100⟩, 0)
    ∧ runFetches ⟨some ⟨true, ["k1"]⟩, some 3600⟩
        [(1, .ok ⟨true, ["k2"]⟩), (2, .raise (.netError "down"))] =
      (⟨some ⟨true, ["k1"]⟩, some 3600⟩, 0)
    ∧ fetchJwksStep emptyJwksState 0 (.ok ⟨true, ["k1"]⟩) =
      (.ok ⟨true, ["k1"]⟩, ⟨some ⟨true, ["k1"]⟩, some 3600⟩, 1) :=
  ⟨c9_jwks_cache_window.1 ⟨some ⟨true, ["k1"]⟩, some 100⟩ 5 (.raise (.netError "down"))
      ⟨true, ["k1"]⟩ rfl rfl,
   c9_jwks_cache_window.2.1 ⟨true, ["k1"]⟩ 3600
      [(1, .ok ⟨true, ["k2"]⟩), (2, .raise (.netError "down"))] rfl
      (by decide),
   c9_jwks_cache_window.2.2 emptyJwksState 0 ⟨true, ["k1"]⟩ rfl⟩

/-- C10: with authentication enabled, whenever token validation fails
with an `OAuthError` (token missing, invalid, expired, or insufficient
scopes — all of which `validate_oauth_token` surfaces as `OAuthError`
subclasses), both the `search` tool and the `get_document` tool return
the normalized `Authentication failed: ...` error payload and issue no
request to the search engine: validation runs strictly before any engine
call. -/
theorem c10_auth_failure_short_circuits :
    (∀ (cfg : OAuth2Config) (st : JwksState) (now : Nat) (fo : FetchOutcome)
        (ho : HeaderOutcome) (deco : DecodeOutcome) (intr : IntrospectOutcome)
        (args : SearchArgs) (outcome : HttpOutcome) (e : OAuthErrorT),
      cfg.enabled = true →
      (validate_oauth_token cfg args.access_token st now fo ho deco intr).1 =
        .error (.oauth e) →
      searchTool cfg st now fo ho deco intr args outcome =
        (.pdict (mkError ("Authentication failed: " ++ oauthMsg e)), []))
    ∧ (∀ (cfg : OAuth2Config) (st : JwksState) (now : Nat) (fo : FetchOutcome)
        (ho : HeaderOutcome) (deco : DecodeOutcome) (intr : IntrospectOutcome)
        (args : GetDocArgs) (outcome : HttpOutcome) (e : OAuthErrorT),
      cfg.enabled = true →
      (validate_oauth_token cfg args.access_token st now fo ho deco intr).1 =
        .error (.oauth e) →
      getDocumentTool cfg st now fo ho deco intr args outcome =
        (.pdict (mkError ("Authentication failed: " ++ oauthMsg e)), [])) := by
  constructor
  · intro cfg st now fo ho deco intr args outcome e _hen hv
    unfold searchTool
    rw [hv]
  · intro cfg st now fo ho deco intr args outcome e _hen hv
    unfold getDocumentTool
    rw [hv]

/-- Closed instance of `c10_auth_failure_short_circuits`: with OAuth
enabled and no token supplied, both tools return the normalized
missing-token error and issue no engine request. -/
theorem c10_witness :
    cfgEnabled.enabled = true ∧
    searchTool cfgEnabled emptyJwksState 0 (.ok ⟨true, ["k"]⟩) (.ok (some "k"))
        (.ok [("sub", .pstr "alice")]) (.ok []) { query := "*:*" }
        (.ok (.pdict [("response", .pdict [])])) =
      (.pdict (mkError ("Authentication failed: " ++ oauthMsg
        (.tokenMissing ("OAuth is enabled but no access token provided. " ++
          "Include token in Authorization header: Bearer <token>")))), []) ∧
    getDocumentTool cfgEnabled emptyJwksState 0 (.ok ⟨true, ["k"]⟩) (.ok (some "k"))
        (.ok [("sub", .pstr "alice")]) (.ok []) { id := "doc1" }
        (.ok (.pdict [("response", .pdict [])])) =
      (.pdict (mkError ("Authentication failed: " ++ oauthMsg
        (.tokenMissing ("OAuth is enabled but no access token provided. " ++
          "Include token in Authorization header: Bearer <token>")))), []) :=
  ⟨rfl,
   c10_auth_failure_short_circuits.1 cfgEnabled emptyJwksState 0 (.ok ⟨true, ["k"]⟩)
     (.ok (some "k")) (.ok [("sub", .pstr "alice")]) (.ok []) { query := "*:*" }
     (.ok (.pdict [("response", .pdict [])]))
     (.tokenMissing ("OAuth is enabled but no access token provided. " ++
       "Include token in Authorization header: Bearer <token>")) rfl rfl,
   c10_auth_failure_short_circuits.2 cfgEnabled emptyJwksState 0 (.ok ⟨true, ["k"]⟩)
     (.ok (some "k")) (.ok [("sub", .pstr "alice")]) (.ok []) { id := "doc1" }
     (.ok (.pdict [("response", .pdict [])]))
     (.tokenMissing ("OAuth is enabled but no access token provided. " ++
       "Include token in Authorization header: Bearer <token>")) rfl rfl⟩
